import Mathlib

/-!
Verification development for the configuration-driven product scraper
(src/scraper/src/scraper_core.py).  The Python source is shallowly embedded:
pure helper methods become Lean functions, the stateful orchestrator becomes
explicit state passing, and fallible fetches become Except values.

External collaborators (HTTP transport, HTML parsing and CSS selection from
httpx / BeautifulSoup, and the urllib URL split/join primitives) are modelled
as explicit parameters bundled in a World structure: the scraper only observes
their results.  CPython-specific behaviours that the code relies on are also
made explicit parameters:
  * pyHash models the builtin hash() on strings, which is salted per process
    (PYTHONHASHSEED), so it is a parameter rather than a fixed function;
  * setOrder models the iteration order of a Python set when list() is applied
    to it: some process-dependent permutation of the elements, driven by the
    salted string hashes, unrelated to insertion order.
All strings are assumed ASCII (URLs and selectors in scope are ASCII), so the
ASCII fragments of Python's str.strip / re \s and \w classes are used.
-/

/-- Python whitespace for str.strip and the re class \s (ASCII fragment). -/
def isPySpace (c : Char) : Bool :=
  c == ' ' || c == '\t' || c == '\n' || c == '\r' || c == '\x0b' || c == '\x0c'

/-- Leading part of Python str.strip. -/
def pyStripCore (l : List Char) : List Char :=
  (((l.dropWhile isPySpace).reverse).dropWhile isPySpace).reverse

/-- Python str.strip(): drop leading and trailing whitespace. -/
def pyStrip (s : String) : String :=
  String.mk (pyStripCore s.data)

/-- Auxiliary scan for re.sub(r'\s+', ' ', text): the flag records whether the
previous character was whitespace, so each maximal whitespace run is replaced
by a single space. -/
def collapseWsAux : Bool → List Char → List Char
  | _, [] => []
  | prevSpace, c :: cs =>
    if isPySpace c then
      if prevSpace then collapseWsAux true cs else ' ' :: collapseWsAux true cs
    else
      c :: collapseWsAux false cs

/-- re.sub(r'\s+', ' ', text): collapse whitespace runs to single spaces. -/
def collapseWs (l : List Char) : List Char :=
  collapseWsAux false l

/-- ProductScraper._clean_text: None for falsy input, collapse whitespace runs,
strip, and turn an empty result back into None. -/
def clean_text : Option String → Option String
  | none => none
  | some t =>
    if t = "" then none
    else
      let cleaned := pyStrip (String.mk (collapseWs t.data))
      if cleaned = "" then none else some cleaned

/-- Digit string to a natural number (the characters are known to be digits). -/
def digitsToNat (l : List Char) : Nat :=
  l.foldl (fun a c => a * 10 + (c.toNat - 48)) 0

/-- Split a character list on a separator character (kernel-reducible
counterpart of str.split for one-character separators). -/
def splitOnCharList (sep : Char) : List Char → List (List Char)
  | [] => [[]]
  | c :: cs =>
    match splitOnCharList sep cs with
    | [] => if c == sep then [[], [c]] else [[c]]
    | h :: t => if c == sep then [] :: h :: t else (c :: h) :: t

/-- First occurrence of a pattern: the part before it and the part after it,
or none when the pattern does not occur. -/
def splitFirst (pat : List Char) : List Char → Option (List Char × List Char)
  | [] => if pat.isEmpty then some ([], []) else none
  | c :: cs =>
    if pat.isPrefixOf (c :: cs) then some ([], (c :: cs).drop pat.length)
    else (splitFirst pat cs).map fun p => (c :: p.1, p.2)

/-- Python float(s) applied to a string made only of digits and dots, as the
exact decimal rational (binary-float rounding is not modelled; no claim
depends on rounding).  float rejects the empty string, a lone dot, and more
than one dot. -/
def pyFloatOfClean (l : List Char) : Option Rat :=
  match splitOnCharList '.' l with
  | [a] => if a.isEmpty then none else some ((digitsToNat a : Rat))
  | [a, b] =>
    if a.isEmpty ∧ b.isEmpty then none
    else some ((digitsToNat a : Rat) +
               (digitsToNat b : Rat) / ((10 : Rat) ^ b.length))
  | _ => none

/-- ProductScraper._parse_price: None for falsy input, strip every character
that is not a digit or a dot, then parse as float (None on ValueError). -/
def parse_price : Option String → Option Rat
  | none => none
  | some s =>
    if s = "" then none
    else pyFloatOfClean (s.data.filter fun c => c.isDigit || c == '.')

/-- One HTML element as the scraper observes it: its get_text(strip=True)
result and its attribute mapping (elem.get). -/
structure Elem where
  textStripped : String
  attrs : List (String × String)
deriving DecidableEq

/-- elem.get(name): the attribute value, or None when absent. -/
def elemGetAttr (e : Elem) (name : String) : Option String :=
  (e.attrs.find? fun p => p.1 == name).map fun p => p.2

/-- A parsed document: soup.select(selector) returning elements in document
order.  soup.select_one(selector) is the head of that list.  The selector
evaluation itself is the external BeautifulSoup collaborator; invalid
selectors (which the source catches, yielding the no-match result) are not in
scope, so select is total here. -/
structure Doc where
  select : String → List Elem

/-- All positions at which pat occurs in l. -/
def strFindAll (pat : List Char) (l : List Char) : List Nat :=
  (List.range (l.length + 1)).filter fun i => pat.isPrefixOf (l.drop i)

/-- re.match(r'(.+)::attr\((.+)\)', selector) from _extract_text, with both
groups greedy and the match anchored at the start only: group 2 extends to the
last closing parenthesis of the whole string, and group 1 is the longest
prefix that still leaves a nonempty group 2 before it.  Returns
(css selector, attribute name) on a match. -/
def attrSelectorSplit (s : String) : Option (String × String) :=
  let l := s.data
  let pat := "::attr(".data
  match (strFindAll [')'] l).getLast? with
  | none => none
  | some j =>
    match ((strFindAll pat l).filter fun i => 1 ≤ i ∧ i + pat.length < j).getLast? with
    | none => none
    | some i =>
      some (String.mk (l.take i),
            String.mk ((l.drop (i + pat.length)).take (j - (i + pat.length))))

/-- ProductScraper._extract_text with extract_all=False.  Attribute form:
elem.get(attr, '').strip() on the first match, None when no element matches.
Plain form: get_text(strip=True) of the first match, None when none. -/
def extract_text_single (doc : Doc) (selector : String) : Option String :=
  match attrSelectorSplit selector with
  | some (css, attrName) =>
    match (doc.select css).head? with
    | none => none
    | some e => some (pyStrip ((elemGetAttr e attrName).getD ""))
  | none =>
    (doc.select selector).head?.map fun e => e.textStripped

/-- ProductScraper._extract_text with extract_all=True.  Attribute form: keep
elements whose attribute is present and truthy, stripped (a whitespace-only
value survives the truthiness test and is kept as an empty string after
strip).  Plain form: all text contents with empty strings filtered out. -/
def extract_text_multi (doc : Doc) (selector : String) : List String :=
  match attrSelectorSplit selector with
  | some (css, attrName) =>
    (doc.select css).filterMap fun e =>
      match elemGetAttr e attrName with
      | none => none
      | some v => if v = "" then none else some (pyStrip v)
  | none =>
    ((doc.select selector).map fun e => e.textStripped).filter fun t => t ≠ ""

/-- The result of urllib.parse.urlparse, with the query held as the decoded
sequence of key=value pairs it denotes (URL percent-encoding round-trips are
the external urllib collaborator and are not remodelled; the values in scope
are plain ASCII). -/
structure ParsedUrl where
  scheme : String
  netloc : String
  path : String
  params : String
  query : List (String × String)
  fragment : String
deriving DecidableEq

/-- One step of urllib.parse.parse_qs: pairs with a blank value are dropped
(keep_blank_values is False), the first nonblank occurrence of a key creates
its group, and later nonblank values are appended to that group. -/
def qsInsert (acc : List (String × List String)) (p : String × String) :
    List (String × List String) :=
  if p.2 = "" then acc
  else if acc.any fun g => g.1 == p.1 then
    acc.map fun g => if g.1 == p.1 then (g.1, g.2 ++ [p.2]) else g
  else
    acc ++ [(p.1, [p.2])]

/-- urllib.parse.parse_qs on the query pair sequence: a dict from key to the
list of its values, in first-insertion key order. -/
def parse_qs (q : List (String × String)) : List (String × List String) :=
  q.foldl qsInsert []

/-- Python dict assignment query_params[param_name] = value: replace the
value of an existing key in place, or append a new key at the end. -/
def dictSet (m : List (String × List String)) (k : String) (v : List String) :
    List (String × List String) :=
  if m.any fun g => g.1 == k then
    m.map fun g => if g.1 == k then (k, v) else g
  else
    m ++ [(k, v)]

/-- urllib.parse.urlencode(query_params, doseq=True): flatten the dict back
into a pair sequence, keys in dict order, each value list in order. -/
def urlencode (m : List (String × List String)) : List (String × String) :=
  m.flatMap fun g => g.2.map fun v => (g.1, v)

/-- All values carried by a key in a query pair sequence, in order. -/
def assocAll (k : String) (l : List (String × String)) : List String :=
  (l.filter fun p => p.1 == k).map fun p => p.2

/-- The pagination section of the YAML config (config.get('pagination', {})),
each key optional.  The source reads the keys 'type', 'param_name' and
'max_pages'. -/
structure PaginationCfg where
  type : Option String
  param_name : Option String
  max_pages : Option Nat
deriving DecidableEq

/-- The extraction section (config.get('extraction', {})). -/
structure ExtractionCfg where
  clean_text : Option Bool
  parse_price : Option Bool
  default_currency : Option String
  extract_all_images : Option Bool
deriving DecidableEq

/-- The error_handling section (config.get('error_handling', {})). -/
structure ErrorHandlingCfg where
  skip_on_error : Option Bool
  log_errors : Option Bool
deriving DecidableEq

/-- The selectors for the product detail page
(config['selectors']['product_detail']), one optional selector per field;
attributes is a sub-dict of attribute name to selector in insertion order. -/
structure DetailSelectors where
  name : Option String
  description : Option String
  brand : Option String
  sub_category : Option String
  price : Option String
  currency : Option String
  attributes : Option (List (String × String))
  features : Option String
  image_url : Option String
  image_urls_all : Option String
deriving DecidableEq

/-- config['selectors'].  The source reads 'product_links' and
'product_detail' directly; a missing key would raise a KeyError that the
phase try/except converts into a phase error, which no claim exercises, so
both are total fields here. -/
structure SelectorsCfg where
  product_links : String
  product_detail : DetailSelectors
deriving DecidableEq

/-- A validated scraper configuration, after _load_config has checked the
four required keys.  Optional sections are absent when the YAML had no such
mapping. -/
structure ScraperConfig where
  site_name : String
  category : String
  start_urls : List String
  selectors : SelectorsCfg
  pagination : Option PaginationCfg
  extraction : Option ExtractionCfg
  error_handling : Option ErrorHandlingCfg
deriving DecidableEq

/-- pagination.get('max_pages', 10). -/
def ScraperConfig.max_pages (c : ScraperConfig) : Nat :=
  ((c.pagination.bind fun p => p.max_pages).getD 10)

/-- pagination.get('type', 'url_param'). -/
def ScraperConfig.pagination_type (c : ScraperConfig) : String :=
  ((c.pagination.bind fun p => p.type).getD "url_param")

/-- pagination.get('param_name', 'page'). -/
def ScraperConfig.param_name (c : ScraperConfig) : String :=
  ((c.pagination.bind fun p => p.param_name).getD "page")

/-- extraction_opts.get('clean_text', True). -/
def ScraperConfig.clean_text_enabled (c : ScraperConfig) : Bool :=
  ((c.extraction.bind fun e => e.clean_text).getD true)

/-- extraction_opts.get('parse_price', True). -/
def ScraperConfig.parse_price_enabled (c : ScraperConfig) : Bool :=
  ((c.extraction.bind fun e => e.parse_price).getD true)

/-- extraction_opts.get('default_currency', 'INR'). -/
def ScraperConfig.default_currency (c : ScraperConfig) : String :=
  ((c.extraction.bind fun e => e.default_currency).getD "INR")

/-- extraction_opts.get('extract_all_images', False). -/
def ScraperConfig.extract_all_images (c : ScraperConfig) : Bool :=
  ((c.extraction.bind fun e => e.extract_all_images).getD false)

/-- config.get('error_handling', {}).get('skip_on_error', True). -/
def ScraperConfig.skip_on_error (c : ScraperConfig) : Bool :=
  ((c.error_handling.bind fun e => e.skip_on_error).getD true)

/-- config.get('error_handling', {}).get('log_errors', True). -/
def ScraperConfig.log_errors (c : ScraperConfig) : Bool :=
  ((c.error_handling.bind fun e => e.log_errors).getD true)

/-- The raw YAML document as loaded, before validation: each required key may
be missing. -/
structure RawConfig where
  site_name : Option String
  category : Option String
  start_urls : Option (List String)
  selectors : Option SelectorsCfg
deriving DecidableEq

/-- ProductScraper._load_config validation loop: raise ValueError on the
first missing key among site_name, category, start_urls, selectors, in that
order; otherwise return the config unchanged.  Note the loop only checks key
presence: it does not inspect the value of start_urls. -/
def load_config (c : RawConfig) : Except String RawConfig :=
  if c.site_name.isNone then .error "Missing required config field: site_name"
  else if c.category.isNone then .error "Missing required config field: category"
  else if c.start_urls.isNone then .error "Missing required config field: start_urls"
  else if c.selectors.isNone then .error "Missing required config field: selectors"
  else .ok c

/-- The value stored under the price key: a parsed float when parse_price is
enabled, otherwise the cleaned raw text; either may be Python None. -/
inductive PriceValue where
  | num : Option Rat → PriceValue
  | txt : Option String → PriceValue
deriving DecidableEq

/-- The product dictionary built by _scrape_product_detail.  id, product_url
and category are always set.  For the schema-driven fields an outer none means
the key is absent from the dictionary; for the four basic text fields and
currency the inner Option is the possibly-None Python value.  currency is set
on every path (none here means the stored value is Python None).  image_url is
only set when its extraction is truthy, so it needs no inner Option. -/
structure RawProductRecord where
  id : String
  product_url : String
  category : String
  name : Option (Option String)
  description : Option (Option String)
  brand : Option (Option String)
  sub_category : Option (Option String)
  price : Option PriceValue
  currency : Option String
  attributes : Option (List (String × Option String))
  features : Option (List String)
  image_url : Option String
  image_urls_all : Option (List String)
deriving DecidableEq

/-- One entry of self.errors: the dict with keys url, error and type. -/
structure ErrorRecord where
  url : String
  error : String
  type : String
deriving DecidableEq

/-- The mutable accumulators created in ProductScraper.__init__:
self.products = [] and self.errors = []. -/
structure ScraperState where
  products : List RawProductRecord
  errors : List ErrorRecord
deriving DecidableEq

/-- The fresh state of a newly constructed ProductScraper. -/
def initState : ScraperState := ⟨[], []⟩

/-- The dictionary returned by get_results. -/
structure ScrapeResult where
  site_name : String
  category : String
  total_products : Nat
  total_errors : Nat
  products : List RawProductRecord
  errors : List ErrorRecord
deriving DecidableEq

/-- The external collaborators of one run, as the scraper observes them.
fetch is client.get + raise_for_status + BeautifulSoup: an error value covers
both network errors and non-2xx statuses.  urljoin, urlparse and urlunparse
are the urllib primitives.  pyHash is the salted builtin hash() on strings
(per-process PYTHONHASHSEED salt).  setOrder is the iteration order CPython
gives list(s) for a set s holding the listed elements: some permutation of
them governed by the salted hashes, not by insertion order. -/
structure World where
  fetch : String → Except String Doc
  urljoin : String → String → String
  urlparse : String → ParsedUrl
  urlunparse : ParsedUrl → String
  pyHash : String → Int
  setOrder : List String → List String

/-- The path component of urlparse(url) for the common URL shapes in scope
(scheme://netloc/path with optional query and fragment, or a bare path):
first strip the fragment and the query, then split off scheme://netloc.
Parameter (semicolon) splitting of the last segment is not remodelled. -/
def urlparse_path (url : String) : String :=
  let noFrag := match splitFirst ['#'] url.data with
    | some p => p.1
    | none => url.data
  let noQuery := match splitFirst ['?'] noFrag with
    | some p => p.1
    | none => noFrag
  match splitFirst "://".data noQuery with
  | none => String.mk noQuery
  | some pr =>
    match splitFirst ['/'] pr.2 with
    | none => ""
    | some netlocPath => String.mk ('/' :: netlocPath.2)

/-- The character substitution of re.sub(r'[^\w-]', '_', s): keep word
characters (ASCII fragment of \w: letters, digits, underscore) and hyphens,
replace everything else by an underscore. -/
def sanitizeIdChar (c : Char) : Char :=
  if c.isAlphanum || c == '_' || c == '-' then c else '_'

/-- ProductScraper._generate_product_id: the last nonempty path segment of
the URL with non-word characters replaced by underscores, or, when the URL
has no nonempty path segment, str(hash(url)) — pyHash is the salted builtin
hash, a per-process function, passed in explicitly. -/
def generate_product_id (pyHash : String → Int) (url : String) : String :=
  let path_parts := (splitOnCharList '/' (urlparse_path url).data).filter
    fun p => ¬ p.isEmpty
  match path_parts.getLast? with
  | some lastPart => String.mk (lastPart.map sanitizeIdChar)
  | none => toString (pyHash url)

/-- ProductScraper._get_next_page_url on the parsed URL: none once page_num
exceeds max_pages; for the url_param type, set param_name to str(page_num) in
the parsed query (overwriting any prior value) and rebuild; none for every
other pagination type. -/
def get_next_page_url (cfg : ScraperConfig) (u : ParsedUrl) (page_num : Nat) :
    Option ParsedUrl :=
  if page_num > cfg.max_pages then none
  else if cfg.pagination_type = "url_param" then
    let newQuery :=
      urlencode (dictSet (parse_qs u.query) cfg.param_name [toString page_num])
    some { u with query := newQuery }
  else none

/-- _get_next_page_url at the string level, composing the external
urlparse/urlunparse collaborators around the query rewrite. -/
def get_next_page_url_str (w : World) (cfg : ScraperConfig) (url : String)
    (page_num : Nat) : Option String :=
  (get_next_page_url cfg (w.urlparse url) page_num).map w.urlunparse

/-- ProductScraper._scrape_product_links: on a fetch/HTTP failure return no
links plus a listing-phase error record; on success select the product_links
elements and keep each truthy href resolved against the page URL. -/
def scrape_product_links (w : World) (cfg : ScraperConfig) (url : String) :
    List String × List ErrorRecord :=
  match w.fetch url with
  | .error e => ([], [⟨url, e, "listing"⟩])
  | .ok doc =>
    ((doc.select cfg.selectors.product_links).filterMap fun el =>
      match elemGetAttr el "href" with
      | none => none
      | some href => if href = "" then none else some (w.urljoin url href),
     [])

/-- One insertion into the frontier set: all_product_urls holds each URL at
most once; the list records the set's elements (in discovery order, which the
set itself does not expose — see World.setOrder). -/
def insertUrl (frontier : List String) (u : String) : List String :=
  if frontier.contains u then frontier else frontier ++ [u]

/-- all_product_urls.update(product_links). -/
def updateUrls (frontier : List String) (links : List String) : List String :=
  links.foldl insertUrl frontier

/-- The per-start-URL listing while loop of scrape: while current_url is set
and the frontier holds fewer than limit URLs, fetch the listing page, add its
links, and move to _get_next_page_url(start_url, page_num + 1).  page_num
strictly increases and the next page is none once it exceeds max_pages, so
the loop runs at most max_pages + 1 steps; fuel is the loop bound, always
called with max_pages + 2 so it never runs out.  self.errors is append-only
and never read back by the loop, so the appended listing error records are
returned as a delta, together with the trace of listing URLs fetched. -/
def listingLoop (w : World) (cfg : ScraperConfig) (limit : Nat) (start_url : String) :
    Nat → Option String → Nat → List String → List String × List ErrorRecord × List String
  | 0, _, _, frontier => (frontier, [], [])
  | _ + 1, none, _, frontier => (frontier, [], [])
  | fuel + 1, some current, page_num, frontier =>
    if frontier.length < limit then
      let step := scrape_product_links w cfg current
      let rest := listingLoop w cfg limit start_url fuel
        (get_next_page_url_str w cfg start_url (page_num + 1)) (page_num + 1)
        (updateUrls frontier step.1)
      (rest.1, step.2 ++ rest.2.1, current :: rest.2.2)
    else (frontier, [], [])

/-- The LISTING_DISCOVERY phase: the for loop over start_urls, sharing one
frontier.  Returns the frontier contents, the listing error delta and the
trace of listing fetches. -/
def listingPhase (w : World) (cfg : ScraperConfig) (limit : Nat) :
    List String × List ErrorRecord × List String :=
  cfg.start_urls.foldl
    (fun acc start_url =>
      let r := listingLoop w cfg limit start_url (cfg.max_pages + 2)
        (some start_url) 1 acc.1
      (r.1, acc.2.1 ++ r.2.1, acc.2.2 ++ r.2.2))
    ([], [], [])

/-- A scalar field in the for loop over name/description/brand/sub_category:
key present only when the schema has a selector for it; the extracted value is
cleaned when the clean_text option is enabled. -/
def basicField (cfg : ScraperConfig) (doc : Doc) (sel : Option String) :
    Option (Option String) :=
  sel.map fun s =>
    let value := extract_text_single doc s
    if cfg.clean_text_enabled then clean_text value else value

/-- The product dictionary construction inside _scrape_product_detail, after
a successful fetch and parse of the detail page. -/
def buildRecord (w : World) (cfg : ScraperConfig) (url : String) (doc : Doc) :
    RawProductRecord :=
  let ds := cfg.selectors.product_detail
  { id := generate_product_id w.pyHash url
    product_url := url
    category := cfg.category
    name := basicField cfg doc ds.name
    description := basicField cfg doc ds.description
    brand := basicField cfg doc ds.brand
    sub_category := basicField cfg doc ds.sub_category
    price := ds.price.map fun s =>
      let price_text := extract_text_single doc s
      if cfg.parse_price_enabled then .num (parse_price price_text)
      else .txt (clean_text price_text)
    currency := match ds.currency with
      | some s => extract_text_single doc s
      | none => some cfg.default_currency
    attributes := ds.attributes.map fun attrs =>
      attrs.foldl
        (fun acc p =>
          match extract_text_single doc p.2 with
          | none => acc
          | some v => if v = "" then acc else acc ++ [(p.1, clean_text (some v))])
        []
    features := ds.features.map fun s =>
      let fs := extract_text_multi doc s
      if fs.isEmpty then [] else fs
    image_url := ds.image_url.bind fun s =>
      match extract_text_single doc s with
      | none => none
      | some v => if v = "" then none else some (w.urljoin url v)
    image_urls_all :=
      if cfg.extract_all_images then
        ds.image_urls_all.map fun s =>
          (extract_text_multi doc s).map fun img => w.urljoin url img
      else none }

/-- ProductScraper._scrape_product_detail: a product-phase error record on a
fetch/HTTP failure (the rate-limit sleep is time, not modelled), otherwise
the extracted record. -/
def scrape_product_detail (w : World) (cfg : ScraperConfig) (url : String) :
    Except ErrorRecord RawProductRecord :=
  match w.fetch url with
  | .error e => .error ⟨url, e, "product"⟩
  | .ok doc => .ok (buildRecord w cfg url doc)

/-- The DETAIL_EXTRACTION for loop of scrape: per URL, extract and append the
record, or append the error record and, when skip_on_error is disabled, break
out of the loop.  products/errors are append-only and never read back, so the
appended records are returned as deltas together with the trace of detail
URLs attempted. -/
def detailLoop (w : World) (cfg : ScraperConfig) :
    List String → List RawProductRecord × List ErrorRecord × List String
  | [] => ([], [], [])
  | url :: rest =>
    match scrape_product_detail w cfg url with
    | .ok p =>
      let r := detailLoop w cfg rest
      (p :: r.1, r.2.1, url :: r.2.2)
    | .error e =>
      if cfg.skip_on_error then
        let r := detailLoop w cfg rest
        (r.1, e :: r.2.1, url :: r.2.2)
      else ([], [e], [url])

/-- The observable outcome of one scrape() call: the accumulator state after
the call plus the traces of listing-page and detail-page fetches. -/
structure ScrapeRun where
  state : ScraperState
  listingTrace : List String
  detailTrace : List String
deriving DecidableEq

/-- ProductScraper.scrape: run LISTING_DISCOVERY over all start URLs into the
frontier set, take list(all_product_urls)[:limit] — the set's iteration order
is World.setOrder, CPython's salted-hash-driven order over the collected
elements — then run DETAIL_EXTRACTION, appending to the products and errors
accumulators carried in st. -/
def scrape (w : World) (cfg : ScraperConfig) (limit : Nat) (st : ScraperState) :
    ScrapeRun :=
  let lp := listingPhase w cfg limit
  let product_urls_to_scrape := (w.setOrder lp.1).take limit
  let d := detailLoop w cfg product_urls_to_scrape
  { state := { products := st.products ++ d.1
               errors := st.errors ++ lp.2.1 ++ d.2.1 }
    listingTrace := lp.2.2
    detailTrace := d.2.2 }

/-- ProductScraper.get_results: the result dictionary, with the errors list
replaced by an empty list when log_errors is disabled. -/
def get_results (cfg : ScraperConfig) (st : ScraperState) : ScrapeResult :=
  { site_name := cfg.site_name
    category := cfg.category
    total_products := st.products.length
    total_errors := st.errors.length
    products := st.products
    errors := if cfg.log_errors then st.errors else [] }

/-- A detail schema with no selectors at all. -/
def dsEmpty : DetailSelectors :=
  ⟨none, none, none, none, none, none, none, none, none, none⟩

/-- A detail page with no matching elements. -/
def docEmpty : Doc := ⟨fun _ => []⟩

/-- A listing page whose a.p elements link to two product pages. -/
def docListing : Doc :=
  ⟨fun s => if s = "a.p" then
      [⟨"", [("href", "http://t/p1")]⟩, ⟨"", [("href", "http://t/p2")]⟩]
    else []⟩

/-- Placeholder parse result for runs whose pagination never rebuilds a URL. -/
def dummyParsed : ParsedUrl := ⟨"", "", "", "", [], ""⟩

/-- Fetch map of the two-product mocked site: one listing page, two detail
pages, network error anywhere else. -/
def baseFetch : String → Except String Doc := fun u =>
  if u = "http://t/l" then .ok docListing
  else if u = "http://t/p1" then .ok docEmpty
  else if u = "http://t/p2" then .ok docEmpty
  else .error "404"

/-- Config for the mocked site: one start URL, one listing page. -/
def cfg0 : ScraperConfig :=
  { site_name := "titan", category := "watches"
    start_urls := ["http://t/l"]
    selectors := ⟨"a.p", dsEmpty⟩
    pagination := some ⟨some "url_param", none, some 1⟩
    extraction := none, error_handling := none }

/-- A run of the mocked site whose set-iteration order happens to coincide
with discovery order. -/
def W1 : World :=
  { fetch := baseFetch, urljoin := fun _ href => href
    urlparse := fun _ => dummyParsed, urlunparse := fun _ => ""
    pyHash := fun _ => 0, setOrder := fun l => l }

/-- The identical run under a different PYTHONHASHSEED: same fetched
documents, but CPython iterates the frontier set in a different (reversed)
order.  Both orders are permutations of the same set elements. -/
def W2 : World := { W1 with setOrder := List.reverse }

/-- A listing page with a single product link. -/
def docListingOne : Doc :=
  ⟨fun s => if s = "a.p" then [⟨"", [("href", "http://t/p9")]⟩] else []⟩

/-- Config with two listing pages allowed (max_pages = 2). -/
def cfg2 : ScraperConfig :=
  { cfg0 with pagination := some ⟨some "url_param", none, some 2⟩ }

/-- Run in which the first listing page fails over the network while page 2
succeeds: the urlparse/urlunparse stand-ins rebuild the one URL shape this
run needs. -/
def W2c : World :=
  { fetch := fun u =>
      if u = "http://t/l" then .error "boom"
      else if u = "http://t/l?page=2" then .ok docListingOne
      else if u = "http://t/p9" then .ok docEmpty
      else .error "404"
    urljoin := fun _ href => href
    urlparse := fun _ => ⟨"http", "t", "/l", "", [], ""⟩
    urlunparse := fun u => "http://t/l?page=" ++ ((assocAll "page" u.query).headD "")
    pyHash := fun _ => 0, setOrder := fun l => l }

/-- Config with skip_on_error disabled. -/
def cfg3 : ScraperConfig :=
  { cfg0 with error_handling := some ⟨some false, none⟩ }

/-- Run in which the first detail page fails while the second would succeed. -/
def W3 : World :=
  { W1 with fetch := fun u =>
      if u = "http://t/l" then .ok docListing
      else if u = "http://t/p1" then .error "down"
      else if u = "http://t/p2" then .ok docEmpty
      else .error "404" }

/-- Schema whose features selector is an attribute selector. -/
def cfgFB : ScraperConfig :=
  { cfg0 with selectors := ⟨"a.p", { dsEmpty with features := some "i::attr(d)" }⟩ }

/-- A detail page whose single i element carries a whitespace-only d
attribute. -/
def docWsAttr : Doc :=
  ⟨fun s => if s = "i" then [⟨"", [("d", " ")]⟩] else []⟩

/-- Schema with a currency selector that will not match the page. -/
def cfg5 : ScraperConfig :=
  { cfg0 with selectors := ⟨"a.p", { dsEmpty with currency := some "span.c" }⟩ }

lemma map_replace_id' (k : String) (v : List String) :
    ∀ m : List (String × List String), (∀ g ∈ m, g.1 ≠ k) →
      (m.map fun g => if g.1 == k then (k, v) else g) = m
  | [], _ => rfl
  | g :: m, h => by
    have hg : g.1 ≠ k := h g (List.mem_cons_self g m)
    rw [List.map_cons, map_replace_id' k v m fun x hx => h x (List.mem_cons_of_mem g hx)]
    simp [hg]

lemma keys_map_of_fst_eq (f : String × List String → String × List String)
    (hf : ∀ g, (f g).1 = g.1) :
    ∀ m : List (String × List String), (m.map f).map Prod.fst = m.map Prod.fst := by
  intro m
  induction m with
  | nil => rfl
  | cons g m ih => simp [hf, ih]

lemma keys_qsInsert (p : String × String) (acc : List (String × List String))
    (h : (acc.map Prod.fst).Nodup) : ((qsInsert acc p).map Prod.fst).Nodup := by
  unfold qsInsert
  by_cases hb : p.2 = ""
  · rw [if_pos hb]; exact h
  rw [if_neg hb]
  by_cases ha : (acc.any fun g => g.1 == p.1) = true
  · rw [if_pos ha,
      keys_map_of_fst_eq _ (fun g => by by_cases hg : g.1 = p.1 <;> simp [hg]) acc]
    exact h
  · rw [if_neg ha]
    simp only [List.map_append, List.map_cons, List.map_nil]
    refine List.Nodup.append h (List.nodup_singleton _) ?_
    rw [List.disjoint_singleton]
    intro hmem
    rcases List.mem_map.mp hmem with ⟨g, hg, hfst⟩
    exact ha (List.any_eq_true.mpr ⟨g, hg, by simp [hfst]⟩)

lemma parse_qs_keys_nodup (q : List (String × String)) :
    ((parse_qs q).map Prod.fst).Nodup := by
  have general : ∀ (l : List (String × String)) (acc : List (String × List String)),
      (acc.map Prod.fst).Nodup → ((l.foldl qsInsert acc).map Prod.fst).Nodup := by
    intro l
    induction l with
    | nil => intro acc hacc; exact hacc
    | cons p rest ih =>
      intro acc hacc
      exact ih (qsInsert acc p) (keys_qsInsert p acc hacc)
  exact general q [] (by simp)

lemma assocAll_append (k : String) (l₁ l₂ : List (String × String)) :
    assocAll k (l₁ ++ l₂) = assocAll k l₁ ++ assocAll k l₂ := by
  simp [assocAll, List.filter_append]

lemma assocAll_self_map (k : String) (v : List String) :
    assocAll k (v.map fun x => (k, x)) = v := by
  induction v with
  | nil => rfl
  | cons x v ih =>
    simp only [List.map_cons, assocAll, List.filter_cons] at ih ⊢
    simpa using ih

lemma assocAll_other_map (k kk : String) (h : kk ≠ k) (v : List String) :
    assocAll k (v.map fun x => (kk, x)) = [] := by
  induction v with
  | nil => rfl
  | cons x v ih =>
    simp only [List.map_cons, assocAll, List.filter_cons] at ih ⊢
    simp [h]

lemma assocAll_urlencode_of_no_key (k : String) :
    ∀ m : List (String × List String), (∀ g ∈ m, g.1 ≠ k) →
      assocAll k (urlencode m) = []
  | [], _ => rfl
  | g :: m, h => by
    have hu : urlencode (g :: m) = (g.2.map fun x => (g.1, x)) ++ urlencode m := rfl
    rw [hu, assocAll_append,
      assocAll_other_map k g.1 (h g (List.mem_cons_self g m)),
      assocAll_urlencode_of_no_key k m fun x hx => h x (List.mem_cons_of_mem g hx)]
    rfl

lemma assocAll_urlencode_dictSet (k : String) (v : List String) :
    ∀ m : List (String × List String), ((m.map Prod.fst).Nodup) →
      assocAll k (urlencode (dictSet m k v)) = v
  | [], _ => by
    simp only [dictSet, List.any_nil, Bool.false_eq_true, if_false, List.nil_append]
    show assocAll k (urlencode [(k, v)]) = v
    simpa [urlencode] using assocAll_self_map k v
  | g :: m, h => by
    rw [List.map_cons] at h
    have hk' : g.1 ∉ m.map Prod.fst := (List.nodup_cons.mp h).1
    have htl : (m.map Prod.fst).Nodup := (List.nodup_cons.mp h).2
    by_cases hg : g.1 = k
    · have hnokey : ∀ x ∈ m, x.1 ≠ k := fun x hx hxk =>
        hk' (List.mem_map.mpr ⟨x, hx, by rw [hxk, hg]⟩)
      have hany : ((g :: m).any fun e => e.1 == k) = true :=
        List.any_eq_true.mpr ⟨g, List.mem_cons_self g m, by simp [hg]⟩
      rw [dictSet, if_pos hany, List.map_cons]
      have hhead : (if g.1 == k then (k, v) else g) = (k, v) := by simp [hg]
      rw [hhead, map_replace_id' k v m hnokey]
      have hu : urlencode ((k, v) :: m) = (v.map fun x => (k, x)) ++ urlencode m := rfl
      rw [hu, assocAll_append, assocAll_self_map,
        assocAll_urlencode_of_no_key k m hnokey, List.append_nil]
    · have hstep : dictSet (g :: m) k v = g :: dictSet m k v := by
        by_cases ha : (m.any fun e => e.1 == k) = true
        · have hany : ((g :: m).any fun e => e.1 == k) = true := by
            simp [List.any_cons, ha]
          rw [dictSet, if_pos hany, dictSet, if_pos ha, List.map_cons]
          simp [hg]
        · have hany : ¬ ((g :: m).any fun e => e.1 == k) = true := by
            simp only [List.any_cons, Bool.or_eq_true]
            rintro (hh | hh)
            · exact hg (by simpa using hh)
            · exact ha hh
          rw [dictSet, if_neg hany, dictSet, if_neg ha, List.cons_append]
      rw [hstep]
      have hu : urlencode (g :: dictSet m k v)
          = (g.2.map fun x => (g.1, x)) ++ urlencode (dictSet m k v) := rfl
      rw [hu, assocAll_append, assocAll_other_map k g.1 hg,
        assocAll_urlencode_dictSet k v m htl, List.nil_append]

/-- C8: for a url_param pagination config, _get_next_page_url returns none
exactly when page_num exceeds max_pages, and otherwise rebuilds the start URL
with param_name set to str(page_num) — overwriting any prior value, so the
rebuilt query carries exactly that one value for param_name — while scheme,
netloc, path, params and fragment are unchanged; for any other pagination
type the result is always none.  (Purity holds trivially: the embedding is a
function of its arguments.) -/
theorem next_page_url_characterization (cfg : ScraperConfig) (u : ParsedUrl)
    (page_num : Nat) :
    (cfg.pagination_type = "url_param" →
      (get_next_page_url cfg u page_num = none ↔ cfg.max_pages < page_num) ∧
      (∀ u', get_next_page_url cfg u page_num = some u' →
        u'.scheme = u.scheme ∧ u'.netloc = u.netloc ∧ u'.path = u.path ∧
        u'.params = u.params ∧ u'.fragment = u.fragment ∧
        assocAll cfg.param_name u'.query = [toString page_num]))
    ∧ (cfg.pagination_type ≠ "url_param" →
        get_next_page_url cfg u page_num = none) := by
  constructor
  · intro ht
    constructor
    · unfold get_next_page_url
      by_cases hmax : page_num > cfg.max_pages
      · simp [hmax]
      · simp [hmax, ht]
    · intro u' hu'
      by_cases hmax : page_num > cfg.max_pages
      · simp [get_next_page_url, hmax] at hu'
      · simp only [get_next_page_url, if_neg hmax, if_pos ht, Option.some.injEq] at hu'
        subst hu'
        refine ⟨rfl, rfl, rfl, rfl, rfl, ?_⟩
        exact assocAll_urlencode_dictSet cfg.param_name [toString page_num]
          (parse_qs u.query) (parse_qs_keys_nodup u.query)
  · intro ht
    unfold get_next_page_url
    by_cases hmax : page_num > cfg.max_pages
    · simp [hmax]
    · simp [hmax, ht]

/-- Config whose pagination section is missing entirely, so every pagination
option takes its default (type url_param, param_name page, max_pages 10). -/
def cfgP : ScraperConfig := { cfg0 with pagination := none }

/-- A parsed start URL that already carries a page parameter and a
blank-valued parameter. -/
def uW : ParsedUrl := ⟨"http", "t", "/l", "", [("page", "1"), ("x", "")], "frag"⟩

/-- Witness for C8: the characterization applied at a concrete config and
URL, page 11 of a 10-page window. -/
theorem next_page_url_characterization_witness :
    get_next_page_url cfgP uW 11 = none :=
  ((next_page_url_characterization cfgP uW 11).1 rfl).1.mpr (by decide)

/-- C2 (amended): when the fetch of the current listing page fails while the
frontier is not yet full, the listing while loop appends a listing-phase error
record for that URL, adds no links, and then continues: it recurses into the
next page number of the same start URL (computed by _get_next_page_url from
the start URL), rather than stopping pagination for that start URL. -/
theorem listing_failure_appends_error_and_continues
    (w : World) (cfg : ScraperConfig) (limit : Nat) (start current e : String)
    (fuel page_num : Nat) (frontier : List String)
    (hf : w.fetch current = .error e) (hl : frontier.length < limit) :
    listingLoop w cfg limit start (fuel + 1) (some current) page_num frontier =
      (let rest := listingLoop w cfg limit start fuel
          (get_next_page_url_str w cfg start (page_num + 1)) (page_num + 1) frontier
       (rest.1, ⟨current, e, "listing"⟩ :: rest.2.1, current :: rest.2.2)) := by
  simp only [listingLoop, scrape_product_links, hf, if_pos hl, updateUrls, List.foldl_nil,
    List.singleton_append]

/-- A run whose every fetch fails with a network error. -/
def wFail : World := { W1 with fetch := fun _ => .error "net" }

/-- Witness for C2's amended theorem: one failing listing fetch at concrete
inputs, showing the appended error record and the continued loop. -/
theorem listing_failure_appends_error_and_continues_witness :
    listingLoop wFail cfg0 1 "http://t/l" (0 + 1) (some "http://t/l") 1 []
      = ([], [⟨"http://t/l", "net", "listing"⟩], ["http://t/l"]) := by
  rw [listing_failure_appends_error_and_continues wFail cfg0 1 "http://t/l" "http://t/l"
    "net" 0 1 [] rfl (by decide)]
  decide

/-- C3 (amended): when skip_on_error is enabled (its default), the
DETAIL_EXTRACTION loop attempts every drained URL in order — a failing URL
contributes a product-phase error record and never prevents sibling URLs from
being attempted — and the products and errors deltas are exactly the
successes and failures in order. -/
theorem detail_loop_characterization (w : World) (cfg : ScraperConfig)
    (h : cfg.skip_on_error = true) :
    ∀ urls : List String,
      (detailLoop w cfg urls).2.2 = urls ∧
      (detailLoop w cfg urls).1 = urls.filterMap (fun u =>
        match scrape_product_detail w cfg u with
        | .ok p => some p
        | .error _ => none) ∧
      (detailLoop w cfg urls).2.1 = urls.filterMap (fun u =>
        match scrape_product_detail w cfg u with
        | .ok _ => none
        | .error e => some e) := by
  intro urls
  induction urls with
  | nil => exact ⟨rfl, rfl, rfl⟩
  | cons u rest ih =>
    cases hu : scrape_product_detail w cfg u with
    | ok p =>
      refine ⟨?_, ?_, ?_⟩ <;>
        simp [detailLoop, hu, List.filterMap_cons, ih.1, ih.2.1, ih.2.2]
    | error err =>
      refine ⟨?_, ?_, ?_⟩ <;>
        simp [detailLoop, hu, h, List.filterMap_cons, ih.1, ih.2.1, ih.2.2]

/-- Witness for C3's amended theorem: with skip_on_error left at its default,
both drained URLs are attempted even though the first one fails. -/
theorem detail_loop_characterization_witness :
    (detailLoop W3 cfg0 ["http://t/p1", "http://t/p2"]).2.2
      = ["http://t/p1", "http://t/p2"] :=
  (detail_loop_characterization W3 cfg0 rfl ["http://t/p1", "http://t/p2"]).1

/-- C4 (amended): for a successfully extracted detail page, when the schema
has no features entry the features key is absent from the record (not an
empty sequence); when the schema's features entry is a plain CSS selector,
the field is the multi-mode extraction result with empty strings dropped.
(For an attribute-form features selector, a whitespace-only attribute value
survives as an empty string — see the counterexample.) -/
theorem features_field_characterization (w : World) (cfg : ScraperConfig)
    (url : String) (doc : Doc) :
    (cfg.selectors.product_detail.features = none →
      (buildRecord w cfg url doc).features = none) ∧
    (∀ sel, cfg.selectors.product_detail.features = some sel →
      attrSelectorSplit sel = none →
      (buildRecord w cfg url doc).features =
        some (((doc.select sel).map fun e => e.textStripped).filter fun t => t ≠ "")) := by
  constructor
  · intro h
    simp [buildRecord, h]
  · intro sel hsel hattr
    have hif : ∀ fs : List String, (if fs.isEmpty then ([] : List String) else fs) = fs := by
      intro fs; cases fs <;> simp
    simp [buildRecord, hsel, extract_text_multi, hattr, hif]

/-- Schema whose features entry is a plain CSS selector. -/
def cfgFP : ScraperConfig :=
  { cfg0 with selectors := ⟨"a.p", { dsEmpty with features := some "li.f" }⟩ }

/-- A detail page with three li.f elements, the middle one with empty text. -/
def docF : Doc :=
  ⟨fun s => if s = "li.f" then [⟨"a", []⟩, ⟨"", []⟩, ⟨"b", []⟩] else []⟩

/-- Witness for C4's amended theorem at a concrete plain-selector schema. -/
theorem features_field_characterization_witness :
    (buildRecord W1 cfgFP "http://t/p1" docF).features = some ["a", "b"] := by
  rw [(features_field_characterization W1 cfgFP "http://t/p1" docF).2 "li.f" rfl (by decide)]
  decide

/-- C5 (amended): the currency field is branch-selected on schema presence,
not on result presence: with a currency entry in the schema the stored value
is the raw single-mode extraction result — which is Python None when the
selector does not match, not the default currency — and only with no currency
entry at all is extraction_opts.default_currency stored. -/
theorem currency_field_characterization (w : World) (cfg : ScraperConfig)
    (url : String) (doc : Doc) :
    (∀ sel, cfg.selectors.product_detail.currency = some sel →
      (buildRecord w cfg url doc).currency = extract_text_single doc sel) ∧
    (cfg.selectors.product_detail.currency = none →
      (buildRecord w cfg url doc).currency = some cfg.default_currency) := by
  constructor
  · intro sel hsel
    simp [buildRecord, hsel]
  · intro h
    simp [buildRecord, h]

/-- Witness for C5's amended theorem: schema without a currency entry stores
the default currency. -/
theorem currency_field_characterization_witness :
    (buildRecord W1 cfg0 "http://t/p1" docEmpty).currency = some cfg0.default_currency :=
  (currency_field_characterization W1 cfg0 "http://t/p1" docEmpty).2 rfl

/-- C7 (amended): _load_config raises exactly when one of the four required
keys (site_name, category, start_urls, selectors) is missing; it does not
inspect the value of start_urls, so an empty start_urls list is accepted. -/
theorem load_config_rejects_iff_missing_field (c : RawConfig) :
    (∃ e, load_config c = .error e) ↔
      (c.site_name = none ∨ c.category = none ∨ c.start_urls = none ∨
        c.selectors = none) := by
  unfold load_config
  split_ifs with h1 h2 h3 h4 <;> simp_all [Option.isNone_iff_eq_none]

/-- C9 (amended): get_results always reports total_products equal to the
length of the returned products array and total_errors equal to the number of
internally recorded errors; the returned errors array is the recorded list
when log_errors is enabled (in which case total_errors equals its length) and
is empty when log_errors is disabled, while total_errors still counts every
recorded error. -/
theorem get_results_characterization (cfg : ScraperConfig) (st : ScraperState) :
    (get_results cfg st).total_products = (get_results cfg st).products.length ∧
    (get_results cfg st).total_errors = st.errors.length ∧
    (get_results cfg st).errors = (if cfg.log_errors then st.errors else []) ∧
    (cfg.log_errors = true →
      (get_results cfg st).total_errors = (get_results cfg st).errors.length) := by
  refine ⟨rfl, rfl, rfl, ?_⟩
  intro h
  simp [get_results, h]

/-- Witness for C9's amended theorem at a concrete config with logging
enabled and one recorded error. -/
theorem get_results_characterization_witness :
    (get_results cfg0 ⟨[], [⟨"u", "e", "listing"⟩]⟩).total_errors
      = (get_results cfg0 ⟨[], [⟨"u", "e", "listing"⟩]⟩).errors.length :=
  (get_results_characterization cfg0 ⟨[], [⟨"u", "e", "listing"⟩]⟩).2.2.2 rfl

/-- C10: the products and errors accumulators start empty at construction
(initState) and scrape only appends to them: a call on any prior state yields
the prior lists followed by exactly the records a fresh-state call would
produce, so two successive scrape calls on one instance accumulate both
calls' products and errors and get_results reports the combined totals. -/
theorem scrape_accumulates_across_calls (w w₂ : World) (cfg cfg₂ : ScraperConfig)
    (limit limit₂ : Nat) (st : ScraperState) :
    (scrape w cfg limit st).state.products
        = st.products ++ (scrape w cfg limit initState).state.products ∧
    (scrape w cfg limit st).state.errors
        = st.errors ++ (scrape w cfg limit initState).state.errors ∧
    (get_results cfg₂ (scrape w₂ cfg₂ limit₂
        ((scrape w cfg limit initState).state)).state).total_products
      = (scrape w cfg limit initState).state.products.length
        + (scrape w₂ cfg₂ limit₂ initState).state.products.length ∧
    (get_results cfg₂ (scrape w₂ cfg₂ limit₂
        ((scrape w cfg limit initState).state)).state).total_errors
      = (scrape w cfg limit initState).state.errors.length
        + (scrape w₂ cfg₂ limit₂ initState).state.errors.length := by
  refine ⟨?_, ?_, ?_, ?_⟩
  · simp [scrape, get_results, initState, List.append_assoc]
  · simp [scrape, get_results, initState, List.append_assoc]
  · simp [scrape, get_results, initState, List.append_assoc]
  · simp [scrape, get_results, initState, List.append_assoc]
    omega

/-- C1: the detail-page URL sequence is not stable across runs.  Two runs
over the identical config, limit and fetched documents, differing only in the
set-iteration order CPython gives list(all_product_urls) (a permutation of
the same frontier elements, as the last conjunct shows), attempt the detail
URLs in different orders and yield different products lists — so the order is
not first-discovered order in both runs, and the two ScrapeResults cannot be
byte-identical.  The at-most-limit part of the claim does hold (both runs
attempt 2 ≤ 10 URLs here). -/
theorem scrape_set_order_dependence :
    ((scrape W1 cfg0 10 initState).state.products.map fun p => p.id) = ["p1", "p2"] ∧
    ((scrape W2 cfg0 10 initState).state.products.map fun p => p.id) = ["p2", "p1"] ∧
    (scrape W1 cfg0 10 initState).state ≠ (scrape W2 cfg0 10 initState).state ∧
    (W2.setOrder ["http://t/p1", "http://t/p2"]).Perm
      (W1.setOrder ["http://t/p1", "http://t/p2"]) ∧
    (scrape W1 cfg0 10 initState).detailTrace.length ≤ 10 := by
  refine ⟨by decide, by decide, by decide, ?_, by decide⟩
  exact List.Perm.swap _ _ []

/-- C2 counterexample: a run whose first listing page fails with a network
error.  The listing-phase error record is appended, but pagination for that
start URL does not stop: the second listing page of the same start URL is
fetched (it is in the listing trace, and its product link is scraped). -/
theorem listing_failure_claim_counterexample :
    (scrape W2c cfg2 10 initState).listingTrace
      = ["http://t/l", "http://t/l?page=2"] ∧
    (scrape W2c cfg2 10 initState).state.errors
      = [⟨"http://t/l", "boom", "listing"⟩] ∧
    ((scrape W2c cfg2 10 initState).state.products.map fun p => p.product_url)
      = ["http://t/p9"] := by
  refine ⟨by decide, by decide, by decide⟩

/-- C3 counterexample: with skip_on_error disabled, a failure on the first
drained URL prevents its sibling from being attempted: http://t/p2 is in the
drained frontier but never appears in the detail trace. -/
theorem skip_disabled_claim_counterexample :
    (scrape W3 cfg3 10 initState).detailTrace = ["http://t/p1"] ∧
    (scrape W3 cfg3 10 initState).state.errors
      = [⟨"http://t/p1", "down", "product"⟩] ∧
    "http://t/p2" ∈ ((W3.setOrder (listingPhase W3 cfg3 10).1).take 10) ∧
    "http://t/p2" ∉ (scrape W3 cfg3 10 initState).detailTrace := by
  refine ⟨by decide, by decide, by decide, by decide⟩

/-- C4 counterexample: with no features entry in the schema the record has no
features key at all (not an empty sequence), and with an attribute-form
features selector a whitespace-only attribute value yields a features list
that still contains an empty string. -/
theorem features_claim_counterexample :
    (buildRecord W1 cfg0 "http://t/p1" docEmpty).features = none ∧
    (buildRecord W1 cfgFB "http://t/p1" docWsAttr).features = some [""] := by
  refine ⟨by decide, by decide⟩

/-- C5 counterexample: the schema has a currency entry whose selector matches
nothing, and the stored currency is Python None — not the default currency
INR that the claim requires when the selector result is absent. -/
theorem currency_claim_counterexample :
    cfg5.selectors.product_detail.currency = some "span.c" ∧
    (buildRecord W1 cfg5 "http://t/p1" docEmpty).currency = none ∧
    cfg5.default_currency = "INR" := by
  refine ⟨rfl, by decide, rfl⟩

/-- C6: the two deterministic spec examples hold for every process hash, but
for a URL with no nonempty path segment the generated id is str(hash(url)),
which depends on the per-process hash salt: two processes whose salted string
hashes differ give the same URL different ids, so the id is not a pure
function of the URL alone. -/
theorem product_id_hash_salt_dependence :
    (∀ h : String → Int,
      generate_product_id h "https://www.titan.co.in/shop/titan-watch-123"
        = "titan-watch-123" ∧
      generate_product_id h "https://www.titan.co.in/shop/titan watch!123"
        = "titan_watch_123") ∧
    generate_product_id (fun _ => 0) "https://example.com"
      ≠ generate_product_id (fun _ => 1) "https://example.com" := by
  refine ⟨fun h => ⟨rfl, rfl⟩, by decide⟩

/-- A raw config with all four required keys present but an empty start_urls
list. -/
def rawEmptyStarts : RawConfig :=
  ⟨some "titan", some "watches", some [], some ⟨"a.p", dsEmpty⟩⟩

/-- C7 counterexample: a config whose start_urls is present but empty passes
_load_config, so scraper construction succeeds where the claim requires a
fatal configuration error. -/
theorem empty_start_urls_accepted :
    rawEmptyStarts.start_urls = some [] ∧
    load_config rawEmptyStarts = .ok rawEmptyStarts := ⟨rfl, rfl⟩

/-- Config with log_errors disabled. -/
def cfgNoLog : ScraperConfig :=
  { cfg0 with error_handling := some ⟨none, some false⟩ }

/-- C9 counterexample: with log_errors disabled and one recorded error, the
returned document has total_errors = 1 but an empty errors array, so
total_errors differs from the length of the document's errors array. -/
theorem suppressed_errors_break_length_equality :
    (get_results cfgNoLog ⟨[], [⟨"u", "e", "listing"⟩]⟩).total_errors = 1 ∧
    (get_results cfgNoLog ⟨[], [⟨"u", "e", "listing"⟩]⟩).errors.length = 0 := by
  refine ⟨rfl, by decide⟩
